import Mathlib

/-!
# Verification of the travel-booking CRUD/auth core (src/p.py)

Shallow embedding of the core of the Streamlit travel-booking application:
the credential store, catalog store, booking store, session controller
and seeding routine, together with proofs of the testable properties of the specification.

Machine integers are modelled as `Nat` reduced modulo `2^32` where the 32-bit
arithmetic of the source overflows.  MongoDB collections are modelled
as Lean lists: `insert_one` appends, `find_one` returns the first match
in insertion order, `delete_one` removes the first match.
-/

/- ===== SHA-256, as used by `hash_password` (hashlib.sha256(...).hexdigest()) ===== -/

/-- 32-bit modular addition. -/
def add32 (a b : Nat) : Nat := (a + b) % 4294967296

/-- Rotation of a 32-bit word to the right by n places. -/
def rotr32 (n x : Nat) : Nat := ((x >>> n) ||| (x <<< (32 - n))) % 4294967296

/-- 32-bit bitwise complement. -/
def not32 (x : Nat) : Nat := 4294967295 ^^^ x

/-- SHA-256 choice function. -/
def ch32 (x y z : Nat) : Nat := (x &&& y) ^^^ (not32 x &&& z)

/-- SHA-256 majority function. -/
def maj32 (x y z : Nat) : Nat := (x &&& y) ^^^ (x &&& z) ^^^ (y &&& z)

/-- SHA-256 big sigma 0. -/
def bsig0 (x : Nat) : Nat := rotr32 2 x ^^^ rotr32 13 x ^^^ rotr32 22 x

/-- SHA-256 big sigma 1. -/
def bsig1 (x : Nat) : Nat := rotr32 6 x ^^^ rotr32 11 x ^^^ rotr32 25 x

/-- SHA-256 small sigma 0. -/
def ssig0 (x : Nat) : Nat := rotr32 7 x ^^^ rotr32 18 x ^^^ (x >>> 3)

/-- SHA-256 small sigma 1. -/
def ssig1 (x : Nat) : Nat := rotr32 17 x ^^^ rotr32 19 x ^^^ (x >>> 10)

/-- The 64 round constants of SHA-256, written in decimal
(the fractional parts of the cube roots of the first 64 primes). -/
def sha256K : List Nat :=
  [1116352408, 1899447441, 3049323471, 3921009573, 961987163, 1508970993,
   2453635748, 2870763221, 3624381080, 310598401, 607225278, 1426881987,
   1925078388, 2162078206, 2614888103, 3248222580, 3835390401, 4022224774,
   264347078, 604807628, 770255983, 1249150122, 1555081692, 1996064986,
   2554220882, 2821834349, 2952996808, 3210313671, 3336571891, 3584528711,
   113926993, 338241895, 666307205, 773529912, 1294757372, 1396182291,
   1695183700, 1986661051, 2177026350, 2456956037, 2730485921, 2820302411,
   3259730800, 3345764771, 3516065817, 3600352804, 4094571909, 275423344,
   430227734, 506948616, 659060556, 883997877, 958139571, 1322822218,
   1537002063, 1747873779, 1955562222, 2024104815, 2227730452, 2361852424,
   2428436474, 2756734187, 3204031479, 3329325298]

/-- The initial SHA-256 hash value, written in decimal
(the fractional parts of the square roots of the first 8 primes). -/
def sha256H0 : List Nat :=
  [1779033703, 3144134277, 1013904242, 2773480762,
   1359893119, 2600822924, 528734635, 1541459225]

/-- SHA-256 padding: append 0x80, zero bytes, and the 64-bit big-endian bit length. -/
def sha256Pad (msg : List Nat) : List Nat :=
  let len := msg.length
  let bitLen := 8 * len
  let zeros := (119 - len % 64) % 64
  msg ++ [0x80] ++ List.replicate zeros 0 ++
    [bitLen >>> 56 % 256, bitLen >>> 48 % 256, bitLen >>> 40 % 256, bitLen >>> 32 % 256,
     bitLen >>> 24 % 256, bitLen >>> 16 % 256, bitLen >>> 8 % 256, bitLen % 256]

/-- Group a byte list into big-endian 32-bit words. -/
def bytesToWords : List Nat → List Nat
  | b0 :: b1 :: b2 :: b3 :: rest =>
      ((b0 <<< 24) ||| (b1 <<< 16) ||| (b2 <<< 8) ||| b3) :: bytesToWords rest
  | _ => []

/-- Extend the 16-word message block to the 64-word schedule. -/
def sha256Extend (w : List Nat) : Nat → List Nat
  | 0 => w
  | fuel + 1 =>
      let n := w.length
      let nw := add32 (add32 (w.getD (n - 16) 0) (ssig0 (w.getD (n - 15) 0)))
                      (add32 (w.getD (n - 7) 0) (ssig1 (w.getD (n - 2) 0)))
      sha256Extend (w ++ [nw]) fuel

/-- The eight working registers of the SHA-256 compression function. -/
structure Sha256State where
  a : Nat
  b : Nat
  c : Nat
  d : Nat
  e : Nat
  f : Nat
  g : Nat
  h : Nat
deriving Repr, DecidableEq

/-- One SHA-256 compression round. -/
def sha256Round (s : Sha256State) (kw : Nat × Nat) : Sha256State :=
  let t1 := add32 s.h (add32 (bsig1 s.e) (add32 (ch32 s.e s.f s.g) (add32 kw.1 kw.2)))
  let t2 := add32 (bsig0 s.a) (maj32 s.a s.b s.c)
  ⟨add32 t1 t2, s.a, s.b, s.c, add32 s.d t1, s.e, s.f, s.g⟩

/-- Compress one 64-byte block into the running hash value. -/
def sha256Block (hv : List Nat) (block : List Nat) : List Nat :=
  let w := sha256Extend (bytesToWords block) 48
  let init : Sha256State :=
    ⟨hv.getD 0 0, hv.getD 1 0, hv.getD 2 0, hv.getD 3 0,
     hv.getD 4 0, hv.getD 5 0, hv.getD 6 0, hv.getD 7 0⟩
  let s := (sha256K.zip w).foldl sha256Round init
  [add32 (hv.getD 0 0) s.a, add32 (hv.getD 1 0) s.b, add32 (hv.getD 2 0) s.c,
   add32 (hv.getD 3 0) s.d, add32 (hv.getD 4 0) s.e, add32 (hv.getD 5 0) s.f,
   add32 (hv.getD 6 0) s.g, add32 (hv.getD 7 0) s.h]

/-- Process the padded message block by block.  The first argument is
recursion fuel; each step consumes 64 bytes, so any fuel at least the
byte length makes the recursion run to the end of the message. -/
def sha256Chunks : Nat → List Nat → List Nat → List Nat
  | 0, hv, _ => hv
  | _, hv, [] => hv
  | fuel + 1, hv, b :: rest =>
      sha256Chunks fuel (sha256Block hv ((b :: rest).take 64)) ((b :: rest).drop 64)

/-- The SHA-256 digest of a byte list, as eight 32-bit words. -/
def sha256Words (msg : List Nat) : List Nat :=
  sha256Chunks (sha256Pad msg).length sha256H0 (sha256Pad msg)

/-- A lowercase hexadecimal digit character, computed from the ASCII
codes: 48 is the code of the zero digit and 97 that of the letter a. -/
def hexChar (n : Nat) : Char :=
  if n < 10 then Char.ofNat (48 + n) else Char.ofNat (87 + n)

/-- A 32-bit word as eight lowercase hex characters. -/
def wordToHex (w : Nat) : List Char :=
  [hexChar (w >>> 28 % 16), hexChar (w >>> 24 % 16), hexChar (w >>> 20 % 16),
   hexChar (w >>> 16 % 16), hexChar (w >>> 12 % 16), hexChar (w >>> 8 % 16),
   hexChar (w >>> 4 % 16), hexChar (w % 16)]

/-- The lowercase hex digest of a byte list (the `hexdigest()` of hashlib). -/
def sha256Hex (msg : List Nat) : String :=
  String.mk ((sha256Words msg).foldr (fun w acc => wordToHex w ++ acc) [])

/-- UTF-8 encoding of a single code point, matching the Python `str.encode("utf-8")` method. -/
def utf8EncodeCp (c : Nat) : List Nat :=
  if c < 0x80 then [c]
  else if c < 0x800 then
    [0xC0 ||| (c >>> 6), 0x80 ||| (c &&& 0x3F)]
  else if c < 0x10000 then
    [0xE0 ||| (c >>> 12), 0x80 ||| ((c >>> 6) &&& 0x3F), 0x80 ||| (c &&& 0x3F)]
  else
    [0xF0 ||| (c >>> 18), 0x80 ||| ((c >>> 12) &&& 0x3F),
     0x80 ||| ((c >>> 6) &&& 0x3F), 0x80 ||| (c &&& 0x3F)]

/-- UTF-8 bytes of a string (`password.encode("utf-8")`). -/
def strUtf8 (s : String) : List Nat :=
  s.data.foldr (fun c acc => utf8EncodeCp c.toNat ++ acc) []

/-- `hash_password` from src/p.py: the unsalted SHA-256 hex digest of the
UTF-8-encoded plaintext. -/
def hash_password (password : String) : String :=
  sha256Hex (strUtf8 password)

/- ===== Data model (section 3): users, destinations, bookings ===== -/

/-- A document in the `users` collection (src/p.py lines 40-45 and 165-170).
The stored `password` field holds the output of `hash_password`. -/
structure User where
  username : String
  password : String
  role : String
  created_at : Nat
deriving Repr, DecidableEq

/-- A document in the `destinations` collection (src/p.py lines 76-82 and
197-203).  Prices in the source are floats whose sample and form values are
exact; they are modelled as integers.  The driver-generated `_id` is not part
of the document model; where the UI needs it, it is passed explicitly. -/
structure Destination where
  name : String
  location : String
  price : Int
  description : String
  created_at : Nat
deriving Repr, DecidableEq

/-- A document in the `bookings` collection (src/p.py lines 280-289). -/
structure Booking where
  name : String
  email : String
  destination_id : String
  destination_name : Option String
  user : Option String
  travel_date : Nat
  created_at : Nat
  booking_id : String
deriving Repr, DecidableEq

/-- The three MongoDB collections, each as a list in insertion order:
`insert_one` appends, `find_one` takes the first match, `delete_one`
removes the first match. -/
structure DB where
  users : List User
  destinations : List Destination
  bookings : List Booking
deriving Repr, DecidableEq

/- ===== Credential store: register (admin "create_user" form) and verify ===== -/

/-- The two failure modes of the create-user handler (src/p.py lines 157-163):
"Username and password required" and "Username already exists". -/
inductive RegErr where
  | missingFields
  | duplicate
deriving Repr, DecidableEq

/-- The create-user form handler (src/p.py lines 157-171): reject empty
username or password, then reject a username that `find_one` already
matches, otherwise insert the new user with the hashed password.  The
result pairs the (possibly unchanged) database with the outcome. -/
def createUser (db : DB) (uname pwd role : String) (now : Nat) :
    DB × Except RegErr User :=
  if uname = "" || pwd = "" then
    (db, Except.error RegErr.missingFields)
  else
    match db.users.find? (fun u => u.username == uname) with
    | some _ => (db, Except.error RegErr.duplicate)
    | none =>
        let newUser : User := ⟨uname, hash_password pwd, role, now⟩
        ({ db with users := db.users ++ [newUser] }, Except.ok newUser)

/-- The identity the session keeps after a successful login
(src/p.py line 117, without the driver-generated `_id` string). -/
structure SessionUser where
  username : String
  role : String
deriving Repr, DecidableEq

/-- The credential check of the login form handler (src/p.py lines 112-121):
`find_one` on both username and role, then compare the stored hash with
the hash of the supplied password. -/
def verify (db : DB) (username password role : String) : Option SessionUser :=
  match db.users.find? (fun u => u.username == username && u.role == role) with
  | none => none
  | some u =>
      if u.password == hash_password password then
        some ⟨username, role⟩
      else
        none

/- ===== Catalog store: the admin "add_dest" form handler ===== -/

/-- The single failure mode of the add-destination handler
(src/p.py line 195): "Name and location required". -/
inductive DestErr where
  | missingFields
deriving Repr, DecidableEq

/-- The add-destination form handler (src/p.py lines 193-204): reject an
empty name or location, otherwise insert the record.  The handler itself
performs no check on `price`; the only non-negativity constraint in the
source is the `min_value=0.0` of the UI widget (line 190), which is outside
the handler. -/
def addDest (db : DB) (name location : String) (price : Int) (desc : String)
    (now : Nat) : DB × Except DestErr Destination :=
  if name = "" || location = "" then
    (db, Except.error DestErr.missingFields)
  else
    let d : Destination := ⟨name, location, price, desc, now⟩
    ({ db with destinations := db.destinations ++ [d] }, Except.ok d)

/- ===== Booking store: create (book_form) and cancel ===== -/

/-- The single failure mode of the booking form handler
(src/p.py line 278): "Please fill required fields". -/
inductive BookErr where
  | missingFields
deriving Repr, DecidableEq

/-- The Python idiom `dict(pairs).get(key)`: building a dict from a list of pairs
lets later pairs overwrite earlier ones, so lookup returns the value of
the last matching pair. -/
def assocLast (ps : List (String × String)) (k : String) : Option String :=
  match ps with
  | [] => none
  | (a, b) :: rest =>
      match assocLast rest k with
      | some v => some v
      | none => if a == k then some b else none

/-- The booking form handler (src/p.py lines 276-290): reject a missing
full name, email or destination selection, otherwise insert a booking
whose `booking_id` is the externally generated token
(`str(uuid.uuid4())[:8]`, line 288) — inserted without any check against
existing ids.  `dests_for_select` is the id/label list the page builds
from the destinations and their driver-generated `_id` strings
(line 269); `sel` is the selected id (None when there are no
destinations). -/
def createBooking (db : DB) (fullname email : String) (sel : Option String)
    (dests_for_select : List (String × String)) (user : Option String)
    (travel_date now : Nat) (token : String) : DB × Except BookErr Booking :=
  let selMissing := match sel with
    | none => true
    | some s => s == ""
  if fullname = "" || email = "" || selMissing then
    (db, Except.error BookErr.missingFields)
  else
    let s := sel.getD ""
    let booking : Booking :=
      ⟨fullname, email, s, assocLast dests_for_select s, user, travel_date, now, token⟩
    ({ db with bookings := db.bookings ++ [booking] }, Except.ok booking)

/-- Outcome of a cancel/delete attempt: the source branches on
`res.deleted_count` (src/p.py lines 306-311), showing success or the
not-found error. -/
inductive CancelResult where
  | cancelled
  | notFound
deriving Repr, DecidableEq

/-- The MongoDB `delete_one` call: remove the first document matching the
predicate and report how many documents were deleted (0 or 1). -/
def deleteOne (p : Booking → Bool) : List Booking → List Booking × Nat
  | [] => ([], 0)
  | b :: bs =>
      if p b then (bs, 1)
      else
        let r := deleteOne p bs
        (b :: r.1, r.2)

/-- The cancel-booking handler (src/p.py lines 305-311; the admin
delete-booking handler, lines 224-230, has the same semantics):
`delete_one` on the booking id, success when `deleted_count` is
nonzero, an error otherwise. -/
def cancelBooking (db : DB) (bid : String) : DB × CancelResult :=
  let r := deleteOne (fun b => b.booking_id == bid) db.bookings
  if r.2 ≠ 0 then
    ({ db with bookings := r.1 }, CancelResult.cancelled)
  else
    ({ db with bookings := r.1 }, CancelResult.notFound)

/- ===== Seeding routine (src/p.py lines 37-83) ===== -/

/-- `create_default_admin` (src/p.py lines 37-46): when the `users`
collection is empty, insert the fixed default admin with the hashed
default password. -/
def create_default_admin (db : DB) (now : Nat) : DB :=
  if db.users.length = 0 then
    { db with users := db.users ++ [⟨"admin", hash_password "admin123", "admin", now⟩] }
  else
    db

/-- The fixed 20 sample destinations of `seed_sample_destinations`
(src/p.py lines 53-74). -/
def sampleDestinations (now : Nat) : List Destination :=
  [⟨"Goa Beach Escape", "Goa", 4999, "Relax on the golden sands of Goa", now⟩,
   ⟨"Jaipur Heritage Tour", "Jaipur", 5999, "Explore forts and palaces", now⟩,
   ⟨"Rajasthan Desert Camp", "Jaisalmer", 7999, "Overnight desert camping and cultural night", now⟩,
   ⟨"Kerala Backwaters", "Alleppey", 6999, "Houseboat cruise through serene backwaters", now⟩,
   ⟨"Himachal Hill-stay", "Manali", 5499, "Snowy mountains and cosy cafes", now⟩,
   ⟨"Darjeeling Tea Trails", "Darjeeling", 6499, "Ride the toy train and visit tea gardens", now⟩,
   ⟨"Andaman Scuba", "Port Blair", 12999, "Scuba diving and water sports", now⟩,
   ⟨"Varanasi Spiritual Tour", "Varanasi", 3999, "Sunrise by the Ganges and cultural walks", now⟩,
   ⟨"Goa Adventure", "Goa", 6999, "Water sports and nightlife", now⟩,
   ⟨"Mumbai City Lights", "Mumbai", 4599, "Explore the city that never sleeps", now⟩,
   ⟨"Kashmir Valley", "Srinagar", 15999, "Houseboats, shikaras & snowy peaks", now⟩,
   ⟨"Ladakh Road Trip", "Leh", 18999, "High-altitude lakes and monasteries", now⟩,
   ⟨"Ooty Nilgiri Escape", "Ooty", 5499, "Tea gardens and toy train rides", now⟩,
   ⟨"Mysore Palace Tour", "Mysore", 4299, "Palaces, markets and silk", now⟩,
   ⟨"Pondicherry Quiet Stay", "Pondicherry", 4899, "French quarters and beachside cafés", now⟩,
   ⟨"Rishikesh Adventure", "Rishikesh", 3999, "White water rafting & yoga", now⟩,
   ⟨"Sikkim Scenic", "Gangtok", 7999, "Lakes, monasteries and viewpoints", now⟩,
   ⟨"Hampi Ruins", "Hampi", 3699, "Ancient ruins and boulder landscapes", now⟩,
   ⟨"Goa Luxury", "Goa", 10999, "Premium resorts and private beaches", now⟩,
   ⟨"Andhra Temple Tour", "Tirupati", 2999, "Pilgrimage and local cuisine", now⟩]

/-- `seed_sample_destinations` (src/p.py lines 49-83): when the
`destinations` collection is empty, `insert_many` the fixed sample list. -/
def seed_sample_destinations (db : DB) (now : Nat) : DB :=
  if db.destinations.length = 0 then
    { db with destinations := db.destinations ++ sampleDestinations now }
  else
    db

/-- The seeding routine run at startup (src/p.py lines 94-95):
`create_default_admin` then `seed_sample_destinations`. -/
def seedRoutine (db : DB) (now : Nat) : DB :=
  seed_sample_destinations (create_default_admin db now) now

/- ===== Session/role controller (st.session_state) ===== -/

/-- The session-local state: the keys src/p.py writes into
`st.session_state` — `logged_in` and `user` (lines 88-90), and the three
selected-destination keys the Book button writes (lines 257-259). -/
structure SessionState where
  logged_in : Bool
  user : Option SessionUser
  selected_dest : Option String
  selected_dest_name : Option String
  selected_dest_price : Option Int
deriving Repr, DecidableEq

/-- The initial session (src/p.py lines 88-90): logged out, no user, and
no selected-destination keys set. -/
def initSession : SessionState :=
  ⟨false, none, none, none, none⟩

/-- A successful login (src/p.py lines 116-117): sets `logged_in` and
`user`. -/
def loginSession (s : SessionState) (u : SessionUser) : SessionState :=
  { s with logged_in := true, user := some u }

/-- `logout` (src/p.py lines 124-128): sets `logged_in` to False and
`user` to None.  It touches no other session key. -/
def logout (s : SessionState) : SessionState :=
  { s with logged_in := false, user := none }

/-- The Book button handler (src/p.py lines 256-259): stores the selected
`_id` string, name and price of the selected destination in the session. -/
def selectDestination (s : SessionState) (d : Destination) (oid : String) :
    SessionState :=
  { s with selected_dest := some oid,
           selected_dest_name := some d.name,
           selected_dest_price := some d.price }

/- ===== Claim theorems ===== -/

/-- C5 (counterexample): calling the add-destination handler with
price = -1 (and nonempty name and location) does not fail with a
validation error — it succeeds and inserts the record, changing the
store, contrary to the claim that a negative price is rejected. -/
theorem C5_counterexample :
    (addDest ⟨[], [], []⟩ "Goa" "Goa" (-1) "desc" 0).2 =
      Except.ok ⟨"Goa", "Goa", -1, "desc", 0⟩ ∧
    (addDest ⟨[], [], []⟩ "Goa" "Goa" (-1) "desc" 0).1.destinations =
      [⟨"Goa", "Goa", -1, "desc", 0⟩] ∧
    ([⟨"Goa", "Goa", -1, "desc", 0⟩] : List Destination) ≠ (⟨[], [], []⟩ : DB).destinations :=
  ⟨rfl, rfl, by decide⟩

/-- C5 (amended): the add-destination handler validates only that name
and location are nonempty — an empty name or location fails with
ValidationError and leaves the store unchanged, while any price,
including a negative one, is accepted and inserted unchanged; the
non-negativity constraint lives solely in the min_value of the UI widget. -/
theorem C5_addDest_validation (db : DB) (name location : String) (price : Int)
    (desc : String) (now : Nat) :
    ((name = "" ∨ location = "") →
      addDest db name location price desc now = (db, Except.error DestErr.missingFields)) ∧
    (name ≠ "" → location ≠ "" →
      addDest db name location price desc now =
        ({ db with destinations := db.destinations ++ [⟨name, location, price, desc, now⟩] },
         Except.ok ⟨name, location, price, desc, now⟩)) := by
  constructor
  · intro h
    unfold addDest
    rcases h with h | h <;> simp [h]
  · intro h1 h2
    unfold addDest
    simp [h1, h2]

/-- C5 (witness): at concrete inputs, an empty name is rejected with the
store unchanged, and a negative price is accepted. -/
theorem C5_witness :
    addDest ⟨[], [], []⟩ "" "Goa" 5 "d" 0 = (⟨[], [], []⟩, Except.error DestErr.missingFields) ∧
    addDest ⟨[], [], []⟩ "Goa" "Goa" (-1) "d" 0 =
      (⟨[], [⟨"Goa", "Goa", -1, "d", 0⟩], []⟩, Except.ok ⟨"Goa", "Goa", -1, "d", 0⟩) :=
  ⟨(C5_addDest_validation ⟨[], [], []⟩ "" "Goa" 5 "d" 0).1 (Or.inl rfl),
   (C5_addDest_validation ⟨[], [], []⟩ "Goa" "Goa" (-1) "d" 0).2 (by decide) (by decide)⟩

/-- C6: the seeding routine is idempotent — running it a second time
(at any time stamp) returns the store unchanged, so the count of every
collection is unchanged after the second run. -/
theorem C6_seed_idempotent (db : DB) (t1 t2 : Nat) :
    seedRoutine (seedRoutine db t1) t2 = seedRoutine db t1 ∧
    (seedRoutine (seedRoutine db t1) t2).users.length = (seedRoutine db t1).users.length ∧
    (seedRoutine (seedRoutine db t1) t2).destinations.length =
      (seedRoutine db t1).destinations.length ∧
    (seedRoutine (seedRoutine db t1) t2).bookings.length = (seedRoutine db t1).bookings.length := by
  have h : seedRoutine (seedRoutine db t1) t2 = seedRoutine db t1 := by
    unfold seedRoutine seed_sample_destinations create_default_admin
    by_cases hu : db.users.length = 0 <;> by_cases hd : db.destinations.length = 0 <;>
      simp [hu, hd, sampleDestinations]
  exact ⟨h, by rw [h], by rw [h], by rw [h]⟩

/-- C8 (counterexample): the selected-destination key set by the Book
button during an authenticated session survives logout — logout does not
clear all session-local state. -/
theorem C8_counterexample :
    (logout (selectDestination (loginSession initSession ⟨"alice", "user"⟩)
        ⟨"Goa Beach Escape", "Goa", 4999, "Relax on the golden sands of Goa", 0⟩
        "oid1")).selected_dest_name = some "Goa Beach Escape" ∧
    some "Goa Beach Escape" ≠ (none : Option String) := by
  exact ⟨rfl, by decide⟩

/-- C8 (amended): logout transitions the session to Anonymous by
resetting logged_in and the user identity, but it leaves every other
session-local key — the three selected-destination values — exactly as
they were. -/
theorem C8_logout_fields (s : SessionState) :
    (logout s).logged_in = false ∧ (logout s).user = none ∧
    (logout s).selected_dest = s.selected_dest ∧
    (logout s).selected_dest_name = s.selected_dest_name ∧
    (logout s).selected_dest_price = s.selected_dest_price := by
  simp [logout]

/-- `delete_one` with no matching document deletes nothing and reports
a zero count. -/
theorem deleteOne_none (p : Booking → Bool) (l : List Booking)
    (h : ∀ b ∈ l, ¬ p b) : deleteOne p l = (l, 0) := by
  induction l with
  | nil => rfl
  | cons b bs ih =>
      have hb : ¬ p b := h b (List.Mem.head _)
      have ih' := ih (fun x hx => h x (List.Mem.tail _ hx))
      simp [deleteOne, hb, ih']

/-- `delete_one` with a matching document removes exactly the first
match, keeps everything else in order, and reports a count of one. -/
theorem deleteOne_first (p : Booking → Bool) (l : List Booking)
    (h : ∃ b ∈ l, p b) :
    ∃ l1 b l2, l = l1 ++ b :: l2 ∧ p b = true ∧ (∀ x ∈ l1, ¬ p x) ∧
      deleteOne p l = (l1 ++ l2, 1) := by
  induction l with
  | nil => obtain ⟨b, hb, _⟩ := h; exact absurd hb (List.not_mem_nil b)
  | cons a as ih =>
      by_cases ha : p a
      · exact ⟨[], a, as, rfl, ha, by simp, by simp [deleteOne, ha]⟩
      · have h' : ∃ b ∈ as, p b := by
          obtain ⟨b, hb, hpb⟩ := h
          rcases List.mem_cons.mp hb with rfl | hb'
          · exact absurd hpb ha
          · exact ⟨b, hb', hpb⟩
        obtain ⟨l1, b, l2, heq, hpb, hl1, hdel⟩ := ih h'
        refine ⟨a :: l1, b, l2, by rw [heq]; rfl, hpb, ?_, ?_⟩
        · intro x hx
          rcases List.mem_cons.mp hx with rfl | hx'
          · exact ha
          · exact hl1 x hx'
        · simp [deleteOne, ha, hdel]

/-- C7: cancelling a booking id that matches no stored booking fails
with NotFoundError and leaves the store unchanged; cancelling an id that
matches a stored booking removes exactly the first matching record —
every record before it does not match, and every other record is kept in
order. -/
theorem C7_cancel_semantics (db : DB) (bid : String) :
    ((∀ b ∈ db.bookings, b.booking_id ≠ bid) →
      cancelBooking db bid = (db, CancelResult.notFound)) ∧
    ((∃ b ∈ db.bookings, b.booking_id = bid) →
      ∃ l1 b l2, db.bookings = l1 ++ b :: l2 ∧ b.booking_id = bid ∧
        (∀ x ∈ l1, x.booking_id ≠ bid) ∧
        cancelBooking db bid =
          ({ db with bookings := l1 ++ l2 }, CancelResult.cancelled)) := by
  constructor
  · intro h
    have hd : deleteOne (fun b => b.booking_id == bid) db.bookings = (db.bookings, 0) :=
      deleteOne_none _ _ (fun b hb => by simpa using h b hb)
    unfold cancelBooking
    rw [hd]
    simp
  · intro h
    have h' : ∃ b ∈ db.bookings, (fun b => b.booking_id == bid) b = true := by
      obtain ⟨b, hb, hid⟩ := h
      exact ⟨b, hb, by simpa using hid⟩
    obtain ⟨l1, b, l2, heq, hpb, hl1, hdel⟩ := deleteOne_first _ _ h'
    refine ⟨l1, b, l2, heq, by simpa using hpb, ?_, ?_⟩
    · intro x hx
      have := hl1 x hx
      simpa using this
    · unfold cancelBooking
      rw [hdel]
      simp

/-- C7 (witness): in a store holding one booking with id "ab12cd34",
cancelling the unknown id "zzzz" reports not-found and changes nothing,
and cancelling "ab12cd34" removes exactly that record. -/
theorem C7_witness :
    cancelBooking ⟨[], [],
        [⟨"Bob", "b@x.com", "d1", some "Goa Beach Escape — ₹4999.0", some "bob", 0, 0,
          "ab12cd34"⟩]⟩ "zzzz" =
      (⟨[], [],
        [⟨"Bob", "b@x.com", "d1", some "Goa Beach Escape — ₹4999.0", some "bob", 0, 0,
          "ab12cd34"⟩]⟩, CancelResult.notFound) ∧
    (∃ l1 b l2,
      (⟨[], [],
        [⟨"Bob", "b@x.com", "d1", some "Goa Beach Escape — ₹4999.0", some "bob", 0, 0,
          "ab12cd34"⟩]⟩ : DB).bookings = l1 ++ b :: l2 ∧ b.booking_id = "ab12cd34" ∧
      (∀ x ∈ l1, x.booking_id ≠ "ab12cd34") ∧
      cancelBooking ⟨[], [],
          [⟨"Bob", "b@x.com", "d1", some "Goa Beach Escape — ₹4999.0", some "bob", 0, 0,
            "ab12cd34"⟩]⟩ "ab12cd34" =
        ({ (⟨[], [],
            [⟨"Bob", "b@x.com", "d1", some "Goa Beach Escape — ₹4999.0", some "bob", 0, 0,
              "ab12cd34"⟩]⟩ : DB) with bookings := l1 ++ l2 }, CancelResult.cancelled)) :=
  ⟨(C7_cancel_semantics _ "zzzz").1 (by decide),
   (C7_cancel_semantics _ "ab12cd34").2
     ⟨⟨"Bob", "b@x.com", "d1", some "Goa Beach Escape — ₹4999.0", some "bob", 0, 0,
       "ab12cd34"⟩, List.Mem.head _, rfl⟩⟩

/-- C3 (counterexample): with "bob" already present, a second register
call for "bob" with an empty password fails with the required-fields
error, not with DuplicateError — the emptiness guard fires before the
duplicate check. -/
theorem C3_counterexample :
    (∃ u ∈ (⟨[⟨"bob", "h", "user", 0⟩], [], []⟩ : DB).users, u.username = "bob") ∧
    (createUser ⟨[⟨"bob", "h", "user", 0⟩], [], []⟩ "bob" "" "user" 1).2 =
      Except.error RegErr.missingFields ∧
    RegErr.missingFields ≠ RegErr.duplicate :=
  ⟨⟨⟨"bob", "h", "user", 0⟩, List.Mem.head _, rfl⟩, rfl, by decide⟩

/-- C3 (amended): a register call for a username already present leaves
the store (and hence its row count) unchanged; it fails with
DuplicateError whenever the submitted username and password are both
nonempty, and with the required-fields ValidationError otherwise. -/
theorem C3_duplicate_register (db : DB) (u p r : String) (t : Nat)
    (hmem : ∃ v ∈ db.users, v.username = u) :
    (createUser db u p r t).1 = db ∧
    (createUser db u p r t).1.users.length = db.users.length ∧
    (u ≠ "" → p ≠ "" →
      (createUser db u p r t).2 = Except.error RegErr.duplicate) := by
  obtain ⟨v, hv, hvu⟩ := hmem
  have hfind : db.users.find? (fun w => w.username == u) ≠ none := by
    rw [Ne, List.find?_eq_none]
    push_neg
    exact ⟨v, hv, by simp [hvu]⟩
  by_cases h1 : u = ""
  · constructor
    · simp [createUser, h1]
    · constructor
      · simp [createUser, h1]
      · intro hu _
        exact absurd h1 hu
  · by_cases h2 : p = ""
    · constructor
      · simp [createUser, h1, h2]
      · constructor
        · simp [createUser, h1, h2]
        · intro _ hp
          exact absurd h2 hp
    · obtain ⟨w, hw⟩ := Option.ne_none_iff_exists'.mp hfind
      constructor
      · simp [createUser, h1, h2, hw]
      · constructor
        · simp [createUser, h1, h2, hw]
        · intro _ _
          simp [createUser, h1, h2, hw]

/-- C3 (witness): with "bob" already registered, a second register call
for "bob" with a nonempty password fails with DuplicateError and leaves
the single-row store unchanged. -/
theorem C3_witness :
    (createUser ⟨[⟨"bob", "h", "user", 0⟩], [], []⟩ "bob" "pw2" "admin" 1).1 =
      ⟨[⟨"bob", "h", "user", 0⟩], [], []⟩ ∧
    (createUser ⟨[⟨"bob", "h", "user", 0⟩], [], []⟩ "bob" "pw2" "admin" 1).1.users.length =
      (⟨[⟨"bob", "h", "user", 0⟩], [], []⟩ : DB).users.length ∧
    (createUser ⟨[⟨"bob", "h", "user", 0⟩], [], []⟩ "bob" "pw2" "admin" 1).2 =
      Except.error RegErr.duplicate :=
  have h := C3_duplicate_register ⟨[⟨"bob", "h", "user", 0⟩], [], []⟩ "bob" "pw2" "admin" 1
    ⟨⟨"bob", "h", "user", 0⟩, List.Mem.head _, rfl⟩
  ⟨h.1, h.2.1, h.2.2 (by decide) (by decide)⟩

/-- C4 (counterexample): when the randomly generated token collides with
the id of a booking already present, booking creation succeeds and
returns that same id — the returned booking_id is not distinct from all
existing ids. -/
theorem C4_counterexample :
    (createBooking
        ⟨[], [], [⟨"Bob", "b@x.com", "d1", some "Goa Beach Escape — ₹4999.0", some "bob",
          0, 0, "ab12cd34"⟩]⟩
        "Alice" "a@x.com" (some "d1") [("d1", "Goa Beach Escape — ₹4999.0")]
        (some "alice") 5 6 "ab12cd34").2 =
      Except.ok ⟨"Alice", "a@x.com", "d1", some "Goa Beach Escape — ₹4999.0", some "alice",
        5, 6, "ab12cd34"⟩ ∧
    "ab12cd34" ∈ (⟨[], [], [⟨"Bob", "b@x.com", "d1", some "Goa Beach Escape — ₹4999.0",
        some "bob", 0, 0, "ab12cd34"⟩]⟩ : DB).bookings.map (fun b => b.booking_id) :=
  ⟨rfl, by decide⟩

/-- C4 (amended): booking creation stamps the booking with exactly the
externally generated token as its booking_id and appends it without any
uniqueness check, so the returned id is distinct from all existing ids
exactly when the token itself does not collide with an existing id. -/
theorem C4_booking_id_from_token (db : DB) (fullname email : String)
    (sel : Option String) (dests : List (String × String)) (user : Option String)
    (td now : Nat) (token : String) (bk : Booking)
    (hok : (createBooking db fullname email sel dests user td now token).2 =
      Except.ok bk) :
    bk.booking_id = token ∧
    (createBooking db fullname email sel dests user td now token).1.bookings =
      db.bookings ++ [bk] ∧
    (token ∉ db.bookings.map (fun b => b.booking_id) →
      ∀ b ∈ db.bookings, b.booking_id ≠ bk.booking_id) := by
  rcases sel with _ | s
  · simp [createBooking] at hok
  · by_cases h1 : fullname = ""
    · simp [createBooking, h1] at hok
    · by_cases h2 : email = ""
      · simp [createBooking, h1, h2] at hok
      · by_cases h3 : s = ""
        · simp [createBooking, h1, h2, h3] at hok
        · have hbk : (⟨fullname, email, s, assocLast dests s, user, td, now, token⟩ : Booking)
              = bk := by
            simpa [createBooking, h1, h2, h3] using hok
          subst hbk
          refine ⟨rfl, ?_, ?_⟩
          · simp [createBooking, h1, h2, h3]
          · intro hfresh b hb hcollide
            exact hfresh (List.mem_map.mpr ⟨b, hb, hcollide⟩)

/-- C4 (witness): creating a booking in an empty store with the fresh
token "x1y2z3w4" returns a booking with exactly that id, appended to the
store, and distinct from all (zero) existing ids. -/
theorem C4_witness :
    (⟨"Alice", "a@x.com", "d1", some "Goa — ₹4999.0", some "alice", 5, 6,
      "x1y2z3w4"⟩ : Booking).booking_id = "x1y2z3w4" ∧
    (createBooking ⟨[], [], []⟩ "Alice" "a@x.com" (some "d1") [("d1", "Goa — ₹4999.0")]
        (some "alice") 5 6 "x1y2z3w4").1.bookings =
      (⟨[], [], []⟩ : DB).bookings ++
        [⟨"Alice", "a@x.com", "d1", some "Goa — ₹4999.0", some "alice", 5, 6, "x1y2z3w4"⟩] ∧
    (∀ b ∈ (⟨[], [], []⟩ : DB).bookings,
      b.booking_id ≠ (⟨"Alice", "a@x.com", "d1", some "Goa — ₹4999.0", some "alice", 5, 6,
        "x1y2z3w4"⟩ : Booking).booking_id) :=
  have h := C4_booking_id_from_token ⟨[], [], []⟩ "Alice" "a@x.com" (some "d1")
    [("d1", "Goa — ₹4999.0")] (some "alice") 5 6 "x1y2z3w4"
    ⟨"Alice", "a@x.com", "d1", some "Goa — ₹4999.0", some "alice", 5, 6, "x1y2z3w4"⟩ rfl
  ⟨h.1, h.2.1, h.2.2 (by decide)⟩

/-- C9: because the login lookup matches on both username and role, a
login attempt for a stored user with the correct username and correct
password but a different role returns nothing.  The hypothesis that
every stored user with this username carries the stored role is the data
username-uniqueness invariant of the data model. -/
theorem C9_login_role_mismatch (db : DB) (u p r2 : String) (stored : User)
    (hmem : stored ∈ db.users) (hu : stored.username = u)
    (hp : stored.password = hash_password p)
    (huniq : ∀ v ∈ db.users, v.username = u → v.role = stored.role)
    (hr : r2 ≠ stored.role) :
    verify db u p r2 = none := by
  unfold verify
  have hfind : db.users.find? (fun v => v.username == u && v.role == r2) = none := by
    rw [List.find?_eq_none]
    intro v hv
    simp only [Bool.and_eq_true, beq_iff_eq, not_and]
    intro hvu hvr
    exact absurd (hvr.symm.trans (huniq v hv hvu)) hr
  rw [hfind]

/-- C9 (witness): with only the default admin stored, logging in with
the correct username "admin" and correct password "admin123" but role
"user" returns nothing. -/
theorem C9_witness :
    verify ⟨[⟨"admin", hash_password "admin123", "admin", 0⟩], [], []⟩
      "admin" "admin123" "user" = none :=
  C9_login_role_mismatch _ "admin" "admin123" "user"
    ⟨"admin", hash_password "admin123", "admin", 0⟩
    (List.Mem.head _) rfl rfl
    (fun v hv _ => by cases List.mem_singleton.mp hv; rfl)
    (by decide)

/-- A successful register stores exactly the submitted username and
role, the current time stamp, and the unsalted hash of the submitted
password. -/
theorem createUser_ok_user (db : DB) (u p r : String) (t : Nat) (rec : User)
    (hok : (createUser db u p r t).2 = Except.ok rec) :
    rec = ⟨u, hash_password p, r, t⟩ := by
  by_cases h1 : u = ""
  · simp [createUser, h1] at hok
  · by_cases h2 : p = ""
    · simp [createUser, h1, h2] at hok
    · cases hfind : db.users.find? (fun w => w.username == u) with
      | some w => simp [createUser, h1, h2, hfind] at hok
      | none =>
          have := hok
          simp [createUser, h1, h2, hfind] at this
          exact this.symm

/-- C10: the stored password hash is a deterministic function of the
plaintext alone — any two successful registrations with the same
plaintext password, whatever the store, username, role or time stamp,
persist identical hashes, namely the unsalted `hash_password` of the
plaintext. -/
theorem C10_hash_deterministic (db1 db2 : DB) (u1 u2 p r1 r2 : String)
    (t1 t2 : Nat) (rec1 rec2 : User)
    (h1 : (createUser db1 u1 p r1 t1).2 = Except.ok rec1)
    (h2 : (createUser db2 u2 p r2 t2).2 = Except.ok rec2) :
    rec1.password = hash_password p ∧ rec2.password = hash_password p ∧
    rec1.password = rec2.password := by
  have e1 := createUser_ok_user _ _ _ _ _ _ h1
  have e2 := createUser_ok_user _ _ _ _ _ _ h2
  subst e1
  subst e2
  exact ⟨rfl, rfl, rfl⟩

/-- C10 (witness): registering "alice" and "bob" with the same plaintext
"pw" stores identical password hashes. -/
theorem C10_witness :
    (createUser ⟨[], [], []⟩ "alice" "pw" "user" 0).2 =
      Except.ok ⟨"alice", hash_password "pw", "user", 0⟩ ∧
    (createUser ⟨[], [], []⟩ "bob" "pw" "admin" 1).2 =
      Except.ok ⟨"bob", hash_password "pw", "admin", 1⟩ ∧
    (⟨"alice", hash_password "pw", "user", 0⟩ : User).password =
      (⟨"bob", hash_password "pw", "admin", 1⟩ : User).password :=
  ⟨rfl, rfl,
   (C10_hash_deterministic ⟨[], [], []⟩ ⟨[], [], []⟩ "alice" "bob" "pw" "user" "admin"
     0 1 _ _ rfl rfl).2.2⟩

/-- C1 (code evaluated at the failing input): registering "alice" and
"bob" with the same password stores the same deterministic unsalted
SHA-256 digest for both — there is no per-record salt — and that stored
digest is the concrete hex constant below, not the plaintext. -/
theorem C1_unsalted_hash_at_failing_input :
    (createUser ⟨[], [], []⟩ "alice" "admin123" "user" 0).2 =
      Except.ok ⟨"alice", hash_password "admin123", "user", 0⟩ ∧
    (createUser ⟨[], [], []⟩ "bob" "admin123" "user" 0).2 =
      Except.ok ⟨"bob", hash_password "admin123", "user", 0⟩ ∧
    hash_password "admin123" =
      "240be518fabd2724ddb6f04eeb1da5967448d7e831c08c8fa822809f74c720a9" ∧
    ("240be518fabd2724ddb6f04eeb1da5967448d7e831c08c8fa822809f74c720a9" : String) ≠
      "admin123" :=
  ⟨rfl, rfl, by decide, by decide⟩

/-- Full characterization of a successful register: the stored record,
the new store, and the fact that no stored user already had the
username. -/
theorem createUser_ok_db (db : DB) (u p r : String) (t : Nat) (db2 : DB) (rec : User)
    (hok : createUser db u p r t = (db2, Except.ok rec)) :
    rec = ⟨u, hash_password p, r, t⟩ ∧
    db2 = { db with users := db.users ++ [rec] } ∧
    db.users.find? (fun w => w.username == u) = none := by
  by_cases h1 : u = ""
  · simp [createUser, h1] at hok
  · by_cases h2 : p = ""
    · simp [createUser, h1, h2] at hok
    · cases hfind : db.users.find? (fun w => w.username == u) with
      | some w => simp [createUser, h1, h2, hfind] at hok
      | none =>
          have := hok
          simp [createUser, h1, h2, hfind] at this
          obtain ⟨hdb, hrec⟩ := this
          exact ⟨hrec.symm, by rw [← hdb, hrec], rfl⟩

/-- After a successful register of (u, p, r), logging in with the same
username, password and role succeeds and yields that username and role.
This is the provable half of the round-trip property; the other half —
that every different password is rejected — holds exactly when the other
digest of that password differs (see `verify_wrong_hash_rejected`). -/
theorem verify_after_register (db : DB) (u p r : String) (t : Nat) (db2 : DB)
    (rec : User) (hok : createUser db u p r t = (db2, Except.ok rec)) :
    verify db2 u p r = some ⟨u, r⟩ := by
  obtain ⟨hrec, hdb2, hnone⟩ := createUser_ok_db db u p r t db2 rec hok
  subst hrec
  subst hdb2
  unfold verify
  have hfold : ∀ v ∈ db.users, ¬(v.username == u && v.role == r) = true := by
    intro v hv
    have hvu := (List.find?_eq_none.mp hnone) v hv
    simp only [Bool.and_eq_true, beq_iff_eq, not_and]
    intro h
    exact absurd (by simp [h]) hvu
  rw [List.find?_append, List.find?_eq_none.mpr hfold]
  simp

/-- After a successful register of (u, p, r), a login attempt with a
password whose SHA-256 digest differs from that of p is rejected.  The
unconditional claim — rejection of every password other than p — is
equivalent to this digest condition, i.e. to the absence of a SHA-256
collision with p. -/
theorem verify_wrong_hash_rejected (db : DB) (u p r w : String) (t : Nat)
    (db2 : DB) (rec : User)
    (hok : createUser db u p r t = (db2, Except.ok rec))
    (hne : hash_password w ≠ hash_password p) :
    verify db2 u w r = none := by
  obtain ⟨hrec, hdb2, hnone⟩ := createUser_ok_db db u p r t db2 rec hok
  subst hrec
  subst hdb2
  unfold verify
  have hfold : ∀ v ∈ db.users, ¬(v.username == u && v.role == r) = true := by
    intro v hv
    have hvu := (List.find?_eq_none.mp hnone) v hv
    simp only [Bool.and_eq_true, beq_iff_eq, not_and]
    intro h
    exact absurd (by simp [h]) hvu
  rw [List.find?_append, List.find?_eq_none.mpr hfold]
  simp [Ne.symm hne]
